import Mathlib

/-!
Verification of the guild-membership authority cache subsystem:
the in-memory membership cache (discord-guild-cache.ts), the login
authorization gates (the local password strategy and the Discord OAuth
strategy), the reconciliation sweeper cron job
(discord-guild-verification-job.ts) and the cron bootstrap (cron_jobs/index.ts).

The TypeScript is shallowly embedded as pure state-passing functions:
network calls and database queries become explicit Except-valued inputs,
timestamps become Nat parameters, and JavaScript truthiness of optional
strings is modelled by jsTruthy.
-/

/-- Truthiness of a JavaScript string-or-undefined value: undefined and the
empty string are falsy, every other string is truthy. -/
def jsTruthy : Option String → Bool
  | none => false
  | some s => s != ""

/-- Char-list version of startsWith, used to model String.prototype.includes. -/
def charsStartWith : List Char → List Char → Bool
  | _, [] => true
  | [], _ :: _ => false
  | a :: as, b :: bs => (a == b) && charsStartWith as bs

/-- Char-list substring search. -/
def charsContain (needle : List Char) : List Char → Bool
  | [] => charsStartWith [] needle
  | a :: t => charsStartWith (a :: t) needle || charsContain needle t

/-- Model of the JavaScript test error.message.includes(needle). -/
def stringIncludes (hay needle : String) : Bool :=
  charsContain needle.data hay.data

/-- Discord user object carried inside a guild member record (m.user.id). -/
structure DiscordUser where
  id : String
deriving Repr, DecidableEq

/-- One element of the array returned by discordBot.fetchGuildMembers. -/
structure GuildMember where
  user : DiscordUser
deriving Repr, DecidableEq

/-- State of the DiscordGuildCache class: memberIds (a JS Set of strings,
modelled as a duplicate-free list), lastSync (Date or null, modelled as an
abstract Nat timestamp) and the syncInProgress flag. -/
structure DiscordGuildCache where
  memberIds : List String
  lastSync : Option Nat
  syncInProgress : Bool
deriving Repr, DecidableEq

/-- The freshly constructed singleton: empty set, never synced, idle. -/
def initialGuildCache : DiscordGuildCache := ⟨[], none, false⟩

/-- Which exit path syncGuildMembers took: the early return logged as
"Sync already in progress, skipping...", the throw for a missing
DISCORD_GUILD_ID, a successful sync, or the rethrown "Guild sync failed"
error. -/
inductive SyncOutcome where
  | skippedInProgress
  | missingGuildIdError
  | synced (count : Nat)
  | syncFailed (msg : String)
deriving Repr, DecidableEq

/-- Result of one syncGuildMembers call: the cache state after the call,
the exit path taken, and whether fetchGuildMembers was actually invoked. -/
structure SyncResult where
  state : DiscordGuildCache
  outcome : SyncOutcome
  fetched : Bool
deriving Repr, DecidableEq

/-- DiscordGuildCache.syncGuildMembers. Early-returns if a sync is in
progress; throws if process.env.DISCORD_GUILD_ID is falsy; otherwise sets
the flag, awaits fetchGuildMembers (an Except-valued input here), on
success replaces memberIds with the deduplicated id set and stamps
lastSync, on failure rethrows "Guild sync failed: ..."; the finally block
clears the flag on both paths. -/
def DiscordGuildCache.syncGuildMembers (c : DiscordGuildCache)
    (guildId : Option String) (fetch : Except String (List GuildMember))
    (now : Nat) : SyncResult :=
  if c.syncInProgress then
    ⟨c, .skippedInProgress, false⟩
  else if !(jsTruthy guildId) then
    ⟨c, .missingGuildIdError, false⟩
  else
    match fetch with
    | .ok members =>
      let ids := (members.map (fun m => m.user.id)).dedup
      ⟨⟨ids, some now, false⟩, .synced ids.length, true⟩
    | .error e =>
      ⟨⟨c.memberIds, c.lastSync, false⟩,
       .syncFailed ("Guild sync failed: " ++ (if e == "" then "Unknown error" else e)),
       true⟩

/-- DiscordGuildCache.isMember: O(1) membership test against the cached set. -/
def DiscordGuildCache.isMember (c : DiscordGuildCache) (discordId : String) : Bool :=
  c.memberIds.contains discordId

/-- DiscordGuildCache.getMemberCount. -/
def DiscordGuildCache.getMemberCount (c : DiscordGuildCache) : Nat :=
  c.memberIds.length

/-- DiscordGuildCache.getLastSync. -/
def DiscordGuildCache.getLastSync (c : DiscordGuildCache) : Option Nat :=
  c.lastSync

/-- DiscordGuildCache.isSyncInProgress. -/
def DiscordGuildCache.isSyncInProgress (c : DiscordGuildCache) : Bool :=
  c.syncInProgress

/-- DiscordGuildCache.clear: empties the set and resets lastSync. -/
def DiscordGuildCache.clear (c : DiscordGuildCache) : DiscordGuildCache :=
  ⟨[], none, c.syncInProgress⟩

/-- Row of the users table as selected by the local login strategy. -/
structure UserRow where
  id : String
  email : String
  google_id : Option String
  password : Option String
  discord_id : Option String
deriving Repr, DecidableEq

/-- Outcome of a passport strategy callback: done(null, false) after
flashing msg, done(null, user) success, or done(error). -/
inductive LoginOutcome where
  | doneFalse (msg : String)
  | doneUser (userId : String) (msg : String)
  | doneError (err : String)
deriving Repr, DecidableEq

/-- True exactly on the authorized outcome done(null, user). -/
def LoginOutcome.isSuccess : LoginOutcome → Bool
  | .doneUser _ _ => true
  | _ => false

/-- handleLogin of the local password strategy. Inputs stand for the
external collaborators: queryRows is the users query (throwing into the
outer catch on error), bcryptCompare is bcrypt.compareSync, guildId is
process.env.DISCORD_GUILD_ID, cache is the guildCache singleton and
isUserInGuild is the awaited discordBot.isUserInGuild slow-path call. -/
def handleLogin (email pw : String)
    (queryRows : Except String (List UserRow))
    (bcryptCompare : String → String → Bool)
    (guildId : Option String)
    (cache : DiscordGuildCache)
    (isUserInGuild : Except String Bool) : LoginOutcome :=
  if email == "" || pw == "" then
    .doneFalse "Please enter both email and password"
  else
    match queryRows with
    | .error e => .doneError e
    | .ok rows =>
      match rows.head? with
      | none => .doneFalse "No account found with this email"
      | some data =>
        if !(jsTruthy data.password) then
          .doneFalse "No account found with this email"
        else if bcryptCompare pw (data.password.getD "") then
          if !(jsTruthy data.discord_id) then
            .doneFalse "Your account requires Discord verification. Please contact support or rejoin our Discord server to continue."
          else if !(jsTruthy guildId) then
            .doneFalse "Server configuration error. Please contact support."
          else if cache.isMember (data.discord_id.getD "") then
            .doneUser data.id "User successfully logged in"
          else
            match isUserInGuild with
            | .error _ =>
              .doneFalse "Failed to verify Discord membership. Please try again later."
            | .ok true => .doneUser data.id "User successfully logged in"
            | .ok false =>
              .doneFalse "You must be a member of our Discord server to login. Please rejoin and try again in 5 minutes."
        else
          .doneFalse "Incorrect email or password"

/-- Discord OAuth profile fields used by handleDiscordLogin. -/
structure DiscordProfile where
  id : String
  username : String
  email : String
  avatar : String
deriving Repr, DecidableEq

/-- The outer catch block of handleDiscordLogin: errors whose message
includes EMAIL_EXISTS become a flashed failure, every other error is
passed to done(error). -/
def discordLoginCatch (e : String) : LoginOutcome :=
  if stringIncludes e "EMAIL_EXISTS" then
    .doneFalse "Email already exists. Please login with your existing account."
  else
    .doneError e

/-- Continuation of handleDiscordLogin after guild membership has been
established: local-account conflict check, existing-user lookup and
profile update, or registration. Database calls are Except-valued inputs;
a thrown error goes to the outer catch. The set_active_team call has its
own inner catch that only logs, so its result never affects the outcome. -/
def handleDiscordLoginAfterMembership (profile : DiscordProfile)
    (localAccountCount : Except String Nat)
    (existingUser : Except String (Option UserRow))
    (_setActiveTeamRes : Except String Unit)
    (updateProfileRes : Except String Unit)
    (registerRes : Except String (Option String)) : LoginOutcome :=
  match localAccountCount with
  | .error e => discordLoginCatch e
  | .ok n =>
    if n != 0 then
      .doneFalse ("An account already exists for " ++ profile.email ++ ". Please login with your password.")
    else
      match existingUser with
      | .error e => discordLoginCatch e
      | .ok (some u) =>
        match updateProfileRes with
        | .error e => discordLoginCatch e
        | .ok _ => .doneUser u.id "User successfully logged in"
      | .ok none =>
        match registerRes with
        | .error e => discordLoginCatch e
        | .ok none => .doneFalse "Failed to register Discord user"
        | .ok (some uid) => .doneUser uid "User successfully registered"

/-- handleDiscordLogin of the Discord OAuth strategy. Checks the guild id,
then the cache fast path, then the live isUserInGuild check whose thrown
errors reach the outer catch (discordLoginCatch), then continues with the
account logic. -/
def handleDiscordLogin (guildId : Option String) (profile : DiscordProfile)
    (cache : DiscordGuildCache) (isUserInGuild : Except String Bool)
    (localAccountCount : Except String Nat)
    (existingUser : Except String (Option UserRow))
    (setActiveTeamRes : Except String Unit)
    (updateProfileRes : Except String Unit)
    (registerRes : Except String (Option String)) : LoginOutcome :=
  if !(jsTruthy guildId) then
    .doneFalse "Discord guild configuration missing"
  else if cache.isMember profile.id then
    handleDiscordLoginAfterMembership profile localAccountCount existingUser
      setActiveTeamRes updateProfileRes registerRes
  else
    match isUserInGuild with
    | .error e => discordLoginCatch e
    | .ok false =>
      .doneFalse "Discord guild membership required. Join our server and try again in 5 minutes."
    | .ok true =>
      handleDiscordLoginAfterMembership profile localAccountCount existingUser
        setActiveTeamRes updateProfileRes registerRes

/-- startCronJobs starts the Discord guild verification job exactly when
both DISCORD_BOT_TOKEN and DISCORD_GUILD_ID are truthy. -/
def discordJobStarted (botToken guildId : Option String) : Bool :=
  jsTruthy botToken && jsTruthy guildId

/-- Row of the pg_sessions query projection: user_id and discord_id are
JSON text extractions (null or a string), sid is the session key, expire
is the expiry timestamp. -/
structure SessionRow where
  user_id : Option String
  discord_id : Option String
  sid : String
  expire : Nat
deriving Repr, DecidableEq

/-- The sessions query of the verification tick: rows whose discord_id
JSON field is not null and whose expire is strictly in the future. -/
def enumerateSessions (sessions : List SessionRow) (now : Nat) : List SessionRow :=
  sessions.filter (fun s => s.discord_id.isSome && decide (now < s.expire))

/-- Whether the tick body deletes a given session row: the loop skips rows
with a falsy discord_id and rows whose id is in the cache, and deletes the
rest. -/
def sessionSweepDeletes (cache : DiscordGuildCache) (s : SessionRow) : Bool :=
  match s.discord_id with
  | none => false
  | some d => d != "" && !(cache.isMember d)

/-- Result of the per-session verification loop: the sids deleted before
the loop finished or aborted, and the error that aborted it, if any. -/
structure SweepResult where
  deletedSids : List String
  caught : Option String
deriving Repr, DecidableEq

/-- The per-session loop of the verification tick. Each DELETE is an
Except-valued input; a thrown deletion error escapes the loop (there is no
per-session catch), leaving earlier deletions in place. -/
def sweepSessions (cache : DiscordGuildCache)
    (deleteRes : String → Except String Unit) :
    List SessionRow → SweepResult
  | [] => ⟨[], none⟩
  | s :: rest =>
    match s.discord_id with
    | none => sweepSessions cache deleteRes rest
    | some d =>
      if d == "" then
        sweepSessions cache deleteRes rest
      else if cache.isMember d then
        sweepSessions cache deleteRes rest
      else
        match deleteRes s.sid with
        | .error e => ⟨[], some e⟩
        | .ok _ =>
          let r := sweepSessions cache deleteRes rest
          ⟨s.sid :: r.deletedSids, r.caught⟩

/-- Result of one verification tick: cache state, the session table after
the tick, the number of deletions performed, and the error caught by the
catch block of the tick, if any. -/
structure TickResult where
  cache : DiscordGuildCache
  sessions : List SessionRow
  deletedCount : Nat
  caughtError : Option String
deriving Repr, DecidableEq

/-- onGuildVerificationTick. The whole body sits in one try block: a
throwing syncGuildMembers jumps straight to the catch and the sweep does
not run; a resolving sync (including the skipped-in-progress early return)
is followed by the session enumeration and the per-session loop, whose
thrown errors also land in the same catch. Deletion removes rows by sid. -/
def onGuildVerificationTick (cache : DiscordGuildCache)
    (guildId : Option String) (fetch : Except String (List GuildMember))
    (now : Nat) (sessions : List SessionRow)
    (deleteRes : String → Except String Unit) : TickResult :=
  let sync := cache.syncGuildMembers guildId fetch now
  match sync.outcome with
  | .missingGuildIdError =>
    ⟨sync.state, sessions, 0, some "DISCORD_GUILD_ID environment variable is required"⟩
  | .syncFailed e => ⟨sync.state, sessions, 0, some e⟩
  | _ =>
    let sw := sweepSessions sync.state deleteRes (enumerateSessions sessions now)
    ⟨sync.state, sessions.filter (fun s => !(sw.deletedSids.contains s.sid)),
     sw.deletedSids.length, sw.caught⟩

/-! ## Helper lemmas -/

/-- Deduplication does not change list membership tests. -/
theorem contains_dedup (l : List String) (x : String) :
    l.dedup.contains x = l.contains x := by
  show l.dedup.elem x = l.elem x
  rw [List.elem_eq_mem, List.elem_eq_mem]
  simp [List.mem_dedup]

/-! ## Cache theorems -/

/-- C5: when the roster fetch of syncGuildMembers fails, memberIds and
lastSync are unchanged and isMember answers identically before and after
the failed call; moreover, for a call entered with the flag clear, the
flag is clear again after the call on every exit path (missing guild id
throw, fetch failure, or success). -/
theorem syncGuildMembers_fail_stale
    (c : DiscordGuildCache) (guildId : Option String) (e : String) (now : Nat)
    (hidle : c.syncInProgress = false) :
    ((c.syncGuildMembers guildId (Except.error e) now).state.memberIds = c.memberIds ∧
      (c.syncGuildMembers guildId (Except.error e) now).state.lastSync = c.lastSync ∧
      ∀ x : String,
        (c.syncGuildMembers guildId (Except.error e) now).state.isMember x = c.isMember x) ∧
    ∀ fetch : Except String (List GuildMember),
      (c.syncGuildMembers guildId fetch now).state.syncInProgress = false := by
  constructor
  · by_cases hg : jsTruthy guildId <;>
      simp [DiscordGuildCache.syncGuildMembers, hidle, hg, DiscordGuildCache.isMember]
  · intro fetch
    by_cases hg : jsTruthy guildId <;> cases fetch <;>
      simp [DiscordGuildCache.syncGuildMembers, hidle, hg]

/-- C5 witness at a concrete previously synced cache and a failing fetch. -/
theorem syncGuildMembers_fail_stale_witness :
    ((⟨["A"], some 1, false⟩ : DiscordGuildCache).syncGuildMembers (some "g")
        (Except.error "boom") 5).state.memberIds = ["A"] ∧
    ((⟨["A"], some 1, false⟩ : DiscordGuildCache).syncGuildMembers (some "g")
        (Except.error "boom") 5).state.lastSync = some 1 ∧
    ((⟨["A"], some 1, false⟩ : DiscordGuildCache).syncGuildMembers (some "g")
        (Except.error "boom") 5).state.isMember "C"
      = (⟨["A"], some 1, false⟩ : DiscordGuildCache).isMember "C" ∧
    ((⟨["A"], some 1, false⟩ : DiscordGuildCache).syncGuildMembers (some "g")
        (Except.error "boom") 5).state.syncInProgress = false := by
  have h := syncGuildMembers_fail_stale ⟨["A"], some 1, false⟩ (some "g") "boom" 5 rfl
  exact ⟨h.1.1, h.1.2.1, h.1.2.2 "C", h.2 (Except.error "boom")⟩

/-- C6: a syncGuildMembers call made while syncInProgress is set takes the
early-return path: the state (members, lastSync, flag) is untouched, no
authority fetch is made, and the outcome reported to the caller is the
skipped-in-progress one, without waiting. -/
theorem syncGuildMembers_single_flight
    (c : DiscordGuildCache) (guildId : Option String)
    (fetch : Except String (List GuildMember)) (now : Nat)
    (hbusy : c.syncInProgress = true) :
    c.syncGuildMembers guildId fetch now = ⟨c, SyncOutcome.skippedInProgress, false⟩ := by
  unfold DiscordGuildCache.syncGuildMembers
  rw [hbusy]
  simp

/-- C6 witness at a concrete busy cache. -/
theorem syncGuildMembers_single_flight_witness :
    (⟨["A"], some 1, true⟩ : DiscordGuildCache).syncGuildMembers (some "g")
        (Except.ok [⟨⟨"B"⟩⟩]) 9
      = ⟨⟨["A"], some 1, true⟩, SyncOutcome.skippedInProgress, false⟩ :=
  syncGuildMembers_single_flight ⟨["A"], some 1, true⟩ (some "g") (Except.ok [⟨⟨"B"⟩⟩]) 9 rfl

/-- C7: isMember is a pure lookup (it takes the state and returns a Bool,
with no state change and no refresh); after a successful refresh it
answers membership in the fetched roster exactly, and on the never
populated initial cache it answers false for every identifier. -/
theorem isMember_fast_path
    (c : DiscordGuildCache) (g : String) (roster : List GuildMember)
    (now : Nat) (x : String)
    (hidle : c.syncInProgress = false) (hg : g ≠ "") :
    ((c.syncGuildMembers (some g) (Except.ok roster) now).state.isMember x
      = (roster.map (fun m => m.user.id)).contains x) ∧
    ∀ y : String, initialGuildCache.isMember y = false := by
  have hgt : jsTruthy (some g) = true := by simp [jsTruthy, hg]
  constructor
  · simp [DiscordGuildCache.syncGuildMembers, hidle, hgt,
      DiscordGuildCache.isMember, contains_dedup]
  · intro y
    rfl

/-- C7 witness: after refreshing with roster consisting of A and B,
isMember answers true for A and false for C; the empty cache answers false. -/
theorem isMember_fast_path_witness :
    ((initialGuildCache.syncGuildMembers (some "g")
        (Except.ok [⟨⟨"A"⟩⟩, ⟨⟨"B"⟩⟩]) 3).state.isMember "A" = true) ∧
    ((initialGuildCache.syncGuildMembers (some "g")
        (Except.ok [⟨⟨"A"⟩⟩, ⟨⟨"B"⟩⟩]) 3).state.isMember "C" = false) ∧
    initialGuildCache.isMember "C" = false := by
  have hA := (isMember_fast_path initialGuildCache "g" [⟨⟨"A"⟩⟩, ⟨⟨"B"⟩⟩] 3 "A" rfl (by decide)).1
  have hC := (isMember_fast_path initialGuildCache "g" [⟨⟨"A"⟩⟩, ⟨⟨"B"⟩⟩] 3 "C" rfl (by decide)).1
  have hE := (isMember_fast_path initialGuildCache "g" [⟨⟨"A"⟩⟩, ⟨⟨"B"⟩⟩] 3 "C" rfl (by decide)).2 "C"
  exact ⟨hA.trans (by decide), hC.trans (by decide), hE⟩

/-- C8: refreshing twice in sequence against an unchanged upstream roster
leaves the member set after the second call equal to the set after the
first, while lastSync carries the first and then the second (not earlier)
timestamp. -/
theorem syncGuildMembers_idempotent
    (c : DiscordGuildCache) (g : String) (roster : List GuildMember) (t1 t2 : Nat)
    (hidle : c.syncInProgress = false) (hg : g ≠ "") (ht : t1 ≤ t2) :
    (((c.syncGuildMembers (some g) (Except.ok roster) t1).state.syncGuildMembers
        (some g) (Except.ok roster) t2).state.memberIds
      = (c.syncGuildMembers (some g) (Except.ok roster) t1).state.memberIds) ∧
    (c.syncGuildMembers (some g) (Except.ok roster) t1).state.lastSync = some t1 ∧
    ((c.syncGuildMembers (some g) (Except.ok roster) t1).state.syncGuildMembers
        (some g) (Except.ok roster) t2).state.lastSync = some t2 ∧
    t1 ≤ t2 := by
  have hgt : jsTruthy (some g) = true := by simp [jsTruthy, hg]
  simp [DiscordGuildCache.syncGuildMembers, hidle, hgt, ht]

/-- C8 witness at a concrete roster and increasing timestamps. -/
theorem syncGuildMembers_idempotent_witness :
    (((initialGuildCache.syncGuildMembers (some "g") (Except.ok [⟨⟨"A"⟩⟩]) 4).state.syncGuildMembers
        (some "g") (Except.ok [⟨⟨"A"⟩⟩]) 7).state.memberIds
      = (initialGuildCache.syncGuildMembers (some "g") (Except.ok [⟨⟨"A"⟩⟩]) 4).state.memberIds) ∧
    (initialGuildCache.syncGuildMembers (some "g") (Except.ok [⟨⟨"A"⟩⟩]) 4).state.lastSync = some 4 ∧
    ((initialGuildCache.syncGuildMembers (some "g") (Except.ok [⟨⟨"A"⟩⟩]) 4).state.syncGuildMembers
        (some "g") (Except.ok [⟨⟨"A"⟩⟩]) 7).state.lastSync = some 7 ∧
    4 ≤ 7 :=
  syncGuildMembers_idempotent initialGuildCache "g" [⟨⟨"A"⟩⟩] 4 7 rfl (by decide) (by decide)

/-- Specialisation of the library fact that contains is decided membership. -/
theorem contains_eq_decide_mem (l : List String) (x : String) :
    l.contains x = decide (x ∈ l) :=
  List.elem_eq_mem x l

/-! ## Sweep loop lemmas -/

/-- When every deletion succeeds, the verification loop deletes exactly the
enumerated rows selected by sessionSweepDeletes, in order, and aborts
nothing. -/
theorem sweepSessions_all_ok (cache : DiscordGuildCache)
    (deleteRes : String → Except String Unit) (l : List SessionRow)
    (h : ∀ s ∈ l, deleteRes s.sid = Except.ok ()) :
    sweepSessions cache deleteRes l =
      ⟨(l.filter (fun s => sessionSweepDeletes cache s)).map (fun s => s.sid), none⟩ := by
  induction l with
  | nil => rfl
  | cons s rest ih =>
    have hs : deleteRes s.sid = Except.ok () := h s (List.mem_cons_self s rest)
    have hrest : ∀ t ∈ rest, deleteRes t.sid = Except.ok () :=
      fun t ht => h t (List.mem_cons_of_mem s ht)
    cases hid : s.discord_id with
    | none =>
      simp [sweepSessions, hid, ih hrest, List.filter_cons, sessionSweepDeletes]
    | some d =>
      by_cases hd : d = ""
      · subst hd
        simp [sweepSessions, hid, ih hrest, List.filter_cons, sessionSweepDeletes]
      · by_cases hm : cache.isMember d
        · simp [sweepSessions, hid, hd, hm, ih hrest, List.filter_cons, sessionSweepDeletes]
        · simp [sweepSessions, hid, hd, hm, hs, ih hrest, List.filter_cons, sessionSweepDeletes]

/-- Every sid deleted by the verification loop belongs to some processed
row that the loop judged deletable (truthy discord id, not in the cache). -/
theorem sweepSessions_deleted_sound (cache : DiscordGuildCache)
    (deleteRes : String → Except String Unit) (l : List SessionRow) :
    ∀ sid ∈ (sweepSessions cache deleteRes l).deletedSids,
      ∃ s, s ∈ l ∧ s.sid = sid ∧ sessionSweepDeletes cache s = true := by
  induction l with
  | nil =>
    intro sid hsid
    simp [sweepSessions] at hsid
  | cons s rest ih =>
    intro sid hsid
    cases hid : s.discord_id with
    | none =>
      rw [show sweepSessions cache deleteRes (s :: rest)
          = sweepSessions cache deleteRes rest by simp [sweepSessions, hid]] at hsid
      obtain ⟨t, ht, hts, htd⟩ := ih sid hsid
      exact ⟨t, List.mem_cons_of_mem s ht, hts, htd⟩
    | some d =>
      by_cases hd : d = ""
      · subst hd
        rw [show sweepSessions cache deleteRes (s :: rest)
            = sweepSessions cache deleteRes rest by simp [sweepSessions, hid]] at hsid
        obtain ⟨t, ht, hts, htd⟩ := ih sid hsid
        exact ⟨t, List.mem_cons_of_mem s ht, hts, htd⟩
      · by_cases hm : cache.isMember d
        · rw [show sweepSessions cache deleteRes (s :: rest)
              = sweepSessions cache deleteRes rest by simp [sweepSessions, hid, hd, hm]] at hsid
          obtain ⟨t, ht, hts, htd⟩ := ih sid hsid
          exact ⟨t, List.mem_cons_of_mem s ht, hts, htd⟩
        · cases hdel : deleteRes s.sid with
          | error e =>
            rw [show sweepSessions cache deleteRes (s :: rest)
                = ⟨[], some e⟩ by simp [sweepSessions, hid, hd, hm, hdel]] at hsid
            simp at hsid
          | ok u =>
            cases u
            rw [show sweepSessions cache deleteRes (s :: rest)
                = ⟨s.sid :: (sweepSessions cache deleteRes rest).deletedSids,
                   (sweepSessions cache deleteRes rest).caught⟩
                by simp [sweepSessions, hid, hd, hm, hdel]] at hsid
            rcases List.mem_cons.mp hsid with hh | hh
            · exact ⟨s, List.mem_cons_self s rest, hh.symm,
                by simp [sessionSweepDeletes, hid, hd, hm]⟩
            · obtain ⟨t, ht, hts, htd⟩ := ih sid hh
              exact ⟨t, List.mem_cons_of_mem s ht, hts, htd⟩

/-- When the loop over the first block of rows aborts nothing, sweeping the
concatenation first deletes that block and then behaves as the loop over
the second block. -/
theorem sweepSessions_append (cache : DiscordGuildCache)
    (deleteRes : String → Except String Unit) (la lb : List SessionRow)
    (h : (sweepSessions cache deleteRes la).caught = none) :
    sweepSessions cache deleteRes (la ++ lb) =
      ⟨(sweepSessions cache deleteRes la).deletedSids
        ++ (sweepSessions cache deleteRes lb).deletedSids,
       (sweepSessions cache deleteRes lb).caught⟩ := by
  induction la with
  | nil => simp [sweepSessions]
  | cons s rest ih =>
    cases hid : s.discord_id with
    | none =>
      have h2 : (sweepSessions cache deleteRes rest).caught = none := by
        simpa [sweepSessions, hid] using h
      simp [sweepSessions, hid, ih h2]
    | some d =>
      by_cases hd : d = ""
      · subst hd
        have h2 : (sweepSessions cache deleteRes rest).caught = none := by
          simpa [sweepSessions, hid] using h
        simp [sweepSessions, hid, ih h2]
      · by_cases hm : cache.isMember d
        · have h2 : (sweepSessions cache deleteRes rest).caught = none := by
            simpa [sweepSessions, hid, hd, hm] using h
          simp [sweepSessions, hid, hd, hm, ih h2]
        · cases hdel : deleteRes s.sid with
          | error e =>
            exfalso
            rw [show sweepSessions cache deleteRes (s :: rest)
                = ⟨[], some e⟩ by simp [sweepSessions, hid, hd, hm, hdel]] at h
            simp at h
          | ok u =>
            cases u
            have h2 : (sweepSessions cache deleteRes rest).caught = none := by
              simpa [sweepSessions, hid, hd, hm, hdel] using h
            simp [sweepSessions, hid, hd, hm, hdel, ih h2]

/-- Shape of a verification tick whose refresh succeeds: the cache is
replaced by the fetched roster stamped at now, and the session table keeps
exactly the rows whose sid the loop did not delete. -/
theorem onGuildVerificationTick_ok (cache : DiscordGuildCache) (g : String)
    (roster : List GuildMember) (now : Nat) (sessions : List SessionRow)
    (deleteRes : String → Except String Unit)
    (hidle : cache.syncInProgress = false) (hg : g ≠ "") :
    onGuildVerificationTick cache (some g) (Except.ok roster) now sessions deleteRes =
      ⟨⟨(roster.map (fun m => m.user.id)).dedup, some now, false⟩,
       sessions.filter (fun s =>
         !((sweepSessions ⟨(roster.map (fun m => m.user.id)).dedup, some now, false⟩ deleteRes
             (enumerateSessions sessions now)).deletedSids.contains s.sid)),
       (sweepSessions ⟨(roster.map (fun m => m.user.id)).dedup, some now, false⟩ deleteRes
         (enumerateSessions sessions now)).deletedSids.length,
       (sweepSessions ⟨(roster.map (fun m => m.user.id)).dedup, some now, false⟩ deleteRes
         (enumerateSessions sessions now)).caught⟩ := by
  have hgt : jsTruthy (some g) = true := by simp [jsTruthy, hg]
  simp [onGuildVerificationTick, DiscordGuildCache.syncGuildMembers, hidle, hgt]

/-- Membership in the cache state built by a successful sync is membership
in the fetched roster. -/
theorem isMember_mk_dedup (roster : List GuildMember) (now : Nat) (x : String) :
    (⟨(roster.map (fun m => m.user.id)).dedup, some now, false⟩ : DiscordGuildCache).isMember x
      = (roster.map (fun m => m.user.id)).contains x := by
  simp [DiscordGuildCache.isMember, contains_dedup]

/-! ## Sweeper tick theorems -/

/-- C3 (amended): when the roster fetch of the tick fails, the tick aborts
without sweeping regardless of whether the cache has ever synced: the
session table and the member set are untouched, nothing is deleted, and
the error is caught inside the tick (so the schedule survives) rather
than rethrown. -/
theorem tick_sync_failure_skips_sweep
    (cache : DiscordGuildCache) (guildId : Option String) (e : String) (now : Nat)
    (sessions : List SessionRow) (deleteRes : String → Except String Unit)
    (hidle : cache.syncInProgress = false) (hg : jsTruthy guildId = true) :
    (onGuildVerificationTick cache guildId (Except.error e) now sessions deleteRes).sessions
      = sessions ∧
    (onGuildVerificationTick cache guildId (Except.error e) now sessions deleteRes).deletedCount
      = 0 ∧
    (onGuildVerificationTick cache guildId (Except.error e) now sessions deleteRes).caughtError
      = some ("Guild sync failed: " ++ (if e == "" then "Unknown error" else e)) ∧
    (onGuildVerificationTick cache guildId (Except.error e) now sessions deleteRes).cache.memberIds
      = cache.memberIds := by
  simp [onGuildVerificationTick, DiscordGuildCache.syncGuildMembers, hidle, hg]

/-- C3 witness: a previously synced cache, a failing fetch and a live
non-member session; the tick deletes nothing and keeps the session. -/
theorem tick_sync_failure_skips_sweep_witness :
    (onGuildVerificationTick ⟨["A"], some 100, false⟩ (some "g") (Except.error "timeout") 200
        [⟨some "u2", some "C", "s2", 300⟩] (fun _ => Except.ok ())).sessions
      = [⟨some "u2", some "C", "s2", 300⟩] ∧
    (onGuildVerificationTick ⟨["A"], some 100, false⟩ (some "g") (Except.error "timeout") 200
        [⟨some "u2", some "C", "s2", 300⟩] (fun _ => Except.ok ())).deletedCount = 0 ∧
    (onGuildVerificationTick ⟨["A"], some 100, false⟩ (some "g") (Except.error "timeout") 200
        [⟨some "u2", some "C", "s2", 300⟩] (fun _ => Except.ok ())).caughtError
      = some ("Guild sync failed: " ++ (if ("timeout" : String) == "" then "Unknown error" else "timeout")) ∧
    (onGuildVerificationTick ⟨["A"], some 100, false⟩ (some "g") (Except.error "timeout") 200
        [⟨some "u2", some "C", "s2", 300⟩] (fun _ => Except.ok ())).cache.memberIds = ["A"] :=
  tick_sync_failure_skips_sweep ⟨["A"], some 100, false⟩ (some "g") "timeout" 200
    [⟨some "u2", some "C", "s2", 300⟩] (fun _ => Except.ok ()) rfl rfl

/-- C3 counterexample to the claim as stated: the cache has synced before
(lastSync is set and the member set holds A), the refresh fails, and a
live session of the non-member C is enumerated; the claim says the sweep
proceeds on the last known good snapshot and deletes it, but the tick
leaves it in place and deletes nothing. -/
theorem tick_fetch_error_previously_synced_cex :
    (onGuildVerificationTick ⟨["A"], some 100, false⟩ (some "g") (Except.error "timeout") 200
        [⟨some "u2", some "C", "s2", 300⟩] (fun _ => Except.ok ())).sessions
      = [⟨some "u2", some "C", "s2", 300⟩] ∧
    (onGuildVerificationTick ⟨["A"], some 100, false⟩ (some "g") (Except.error "timeout") 200
        [⟨some "u2", some "C", "s2", 300⟩] (fun _ => Except.ok ())).deletedCount = 0 ∧
    (⟨["A"], some 100, false⟩ : DiscordGuildCache).lastSync = some 100 ∧
    (⟨["A"], some 100, false⟩ : DiscordGuildCache).isMember "C" = false ∧
    enumerateSessions [⟨some "u2", some "C", "s2", 300⟩] 200
      = [⟨some "u2", some "C", "s2", 300⟩] := by
  refine ⟨rfl, rfl, rfl, rfl, rfl⟩

/-- C2 (amended): on a tick whose refresh succeeds and whose deletions all
succeed, an enumerated non-expired session with a non-empty identity
survives the sweep exactly when its identity is in the refreshed roster;
in particular non-members are deleted and members remain. Sessions whose
identity field is the empty string are enumerated but skipped (see the
counterexample and C10). -/
theorem tick_sweep_membership
    (cache : DiscordGuildCache) (g : String) (roster : List GuildMember) (now : Nat)
    (sessions : List SessionRow) (deleteRes : String → Except String Unit)
    (s : SessionRow) (d : String)
    (hidle : cache.syncInProgress = false) (hg : g ≠ "")
    (hdel : ∀ sid, deleteRes sid = Except.ok ())
    (hnodup : (sessions.map (fun u => u.sid)).Nodup)
    (hs : s ∈ sessions) (hid : s.discord_id = some d) (hd : d ≠ "")
    (hexp : now < s.expire) :
    s ∈ (onGuildVerificationTick cache (some g) (Except.ok roster) now sessions deleteRes).sessions
      ↔ (roster.map (fun m => m.user.id)).contains d = true := by
  have hsen : s ∈ enumerateSessions sessions now := by
    refine List.mem_filter.mpr ⟨hs, ?_⟩
    simp [hid, hexp]
  simp only [onGuildVerificationTick_ok cache g roster now sessions deleteRes hidle hg,
    sweepSessions_all_ok ⟨(roster.map (fun m => m.user.id)).dedup, some now, false⟩
      deleteRes (enumerateSessions sessions now) (fun t _ => hdel t.sid)]
  have key : (s.sid ∈ ((enumerateSessions sessions now).filter
        (fun t => sessionSweepDeletes
          ⟨(roster.map (fun m => m.user.id)).dedup, some now, false⟩ t)).map (fun t => t.sid))
      ↔ (roster.map (fun m => m.user.id)).contains d = false := by
    constructor
    · intro hmm
      obtain ⟨t, htf, hts⟩ := List.mem_map.mp hmm
      obtain ⟨hten, htd⟩ := List.mem_filter.mp htf
      have htsess : t ∈ sessions := (List.mem_filter.mp hten).1
      have hts_eq : t = s := List.inj_on_of_nodup_map hnodup htsess hs hts
      rw [hts_eq] at htd
      simpa [sessionSweepDeletes, hid, hd, isMember_mk_dedup] using htd
    · intro hcf
      refine List.mem_map.mpr ⟨s, List.mem_filter.mpr ⟨hsen, ?_⟩, rfl⟩
      have hmem_false :
          (⟨(roster.map (fun m => m.user.id)).dedup, some now, false⟩ : DiscordGuildCache).isMember d
            = false := by
        rw [isMember_mk_dedup, hcf]
      simp [sessionSweepDeletes, hid, hd, hmem_false]
  rw [List.mem_filter]
  constructor
  · rintro ⟨-, hsur⟩
    rcases Bool.eq_false_or_eq_true ((roster.map (fun m => m.user.id)).contains d) with hc | hc
    · exact hc
    · exfalso
      have hm2 := key.mpr hc
      rw [contains_eq_decide_mem] at hsur
      simp only [Bool.not_eq_true', decide_eq_false_iff_not] at hsur
      exact hsur hm2
  · intro hc
    refine ⟨hs, ?_⟩
    have hnot : ¬ s.sid ∈ ((enumerateSessions sessions now).filter
        (fun t => sessionSweepDeletes
          ⟨(roster.map (fun m => m.user.id)).dedup, some now, false⟩ t)).map (fun t => t.sid) := by
      intro hmm
      have h2 := key.mp hmm
      rw [hc] at h2
      exact Bool.noConfusion h2
    rw [contains_eq_decide_mem]
    simp [hnot]

/-- C2 witness: with sessions s1 of member A and s2 of non-member C and a
refreshed roster holding exactly A, the tick keeps s1 and deletes s2. -/
theorem tick_sweep_membership_witness :
    (⟨some "u1", some "A", "s1", 10⟩ : SessionRow) ∈
      (onGuildVerificationTick initialGuildCache (some "g") (Except.ok [⟨⟨"A"⟩⟩]) 0
        [⟨some "u1", some "A", "s1", 10⟩, ⟨some "u2", some "C", "s2", 10⟩]
        (fun _ => Except.ok ())).sessions ∧
    ¬ (⟨some "u2", some "C", "s2", 10⟩ : SessionRow) ∈
      (onGuildVerificationTick initialGuildCache (some "g") (Except.ok [⟨⟨"A"⟩⟩]) 0
        [⟨some "u1", some "A", "s1", 10⟩, ⟨some "u2", some "C", "s2", 10⟩]
        (fun _ => Except.ok ())).sessions := by
  constructor
  · exact (tick_sweep_membership initialGuildCache "g" [⟨⟨"A"⟩⟩] 0
      [⟨some "u1", some "A", "s1", 10⟩, ⟨some "u2", some "C", "s2", 10⟩]
      (fun _ => Except.ok ()) ⟨some "u1", some "A", "s1", 10⟩ "A"
      rfl (by decide) (fun _ => rfl) (by decide) (by decide) rfl (by decide) (by decide)).mpr
      (by decide)
  · intro hmem
    have h2 := (tick_sweep_membership initialGuildCache "g" [⟨⟨"A"⟩⟩] 0
      [⟨some "u1", some "A", "s1", 10⟩, ⟨some "u2", some "C", "s2", 10⟩]
      (fun _ => Except.ok ()) ⟨some "u2", some "C", "s2", 10⟩ "C"
      rfl (by decide) (fun _ => rfl) (by decide) (by decide) rfl (by decide) (by decide)).mp hmem
    exact absurd h2 (by decide)

/-- C2 counterexample to the claim as stated: a session whose identity
field is the empty string is enumerated (its JSON field is not null and it
has not expired) and its identity is not in the refreshed roster, yet the
sweep skips it and deletes nothing. -/
theorem tick_blank_identity_enumerated_not_deleted_cex :
    (onGuildVerificationTick initialGuildCache (some "g") (Except.ok [⟨⟨"A"⟩⟩]) 5
        [⟨some "u3", some "", "s3", 10⟩] (fun _ => Except.ok ())).sessions
      = [⟨some "u3", some "", "s3", 10⟩] ∧
    (onGuildVerificationTick initialGuildCache (some "g") (Except.ok [⟨⟨"A"⟩⟩]) 5
        [⟨some "u3", some "", "s3", 10⟩] (fun _ => Except.ok ())).deletedCount = 0 ∧
    enumerateSessions [⟨some "u3", some "", "s3", 10⟩] 5
      = [⟨some "u3", some "", "s3", 10⟩] ∧
    (onGuildVerificationTick initialGuildCache (some "g") (Except.ok [⟨⟨"A"⟩⟩]) 5
        [⟨some "u3", some "", "s3", 10⟩] (fun _ => Except.ok ())).cache.isMember "" = false := by
  refine ⟨rfl, rfl, rfl, rfl⟩

/-- C4 counterexample to the claim as stated: with two enumerated
non-member sessions, a deletion error on the first is caught at the tick
level, but the sweep does not continue: the second non-member session is
left undeleted and the deletion count is zero. -/
theorem tick_delete_error_stops_sweep_cex :
    (onGuildVerificationTick initialGuildCache (some "g") (Except.ok []) 0
        [⟨some "u1", some "C", "sc", 10⟩, ⟨some "u2", some "D", "sd", 10⟩]
        (fun sid => if sid == "sc" then Except.error "db down" else Except.ok ())).sessions
      = [⟨some "u1", some "C", "sc", 10⟩, ⟨some "u2", some "D", "sd", 10⟩] ∧
    (onGuildVerificationTick initialGuildCache (some "g") (Except.ok []) 0
        [⟨some "u1", some "C", "sc", 10⟩, ⟨some "u2", some "D", "sd", 10⟩]
        (fun sid => if sid == "sc" then Except.error "db down" else Except.ok ())).deletedCount
      = 0 ∧
    (onGuildVerificationTick initialGuildCache (some "g") (Except.ok []) 0
        [⟨some "u1", some "C", "sc", 10⟩, ⟨some "u2", some "D", "sd", 10⟩]
        (fun sid => if sid == "sc" then Except.error "db down" else Except.ok ())).caughtError
      = some "db down" := by
  refine ⟨rfl, rfl, rfl⟩

/-- C4 (amended): a deletion error inside the per-session loop is caught
by the catch block of the tick (recorded in the tick result, never
rethrown out of the tick), but it ends the sweep for that tick: deletions
made before the failing session persist, while the failing session and
every session enumerated after it are left in the table (no session after
the failure point is deleted). -/
theorem tick_session_error_caught_aborts
    (cache : DiscordGuildCache) (g : String) (roster : List GuildMember) (now : Nat)
    (l1 l2 : List SessionRow) (s : SessionRow) (d e : String)
    (deleteRes : String → Except String Unit)
    (hidle : cache.syncInProgress = false) (hg : g ≠ "")
    (hok1 : ∀ t ∈ l1, deleteRes t.sid = Except.ok ())
    (hid : s.discord_id = some d) (hd : d ≠ "") (hexp : now < s.expire)
    (hmem : (roster.map (fun m => m.user.id)).contains d = false)
    (hfail : deleteRes s.sid = Except.error e) :
    (onGuildVerificationTick cache (some g) (Except.ok roster) now (l1 ++ s :: l2) deleteRes).caughtError
      = some e ∧
    (∀ u ∈ l1, ∀ du : String, u.discord_id = some du → du ≠ "" → now < u.expire →
      (roster.map (fun m => m.user.id)).contains du = false →
      ¬ u ∈ (onGuildVerificationTick cache (some g) (Except.ok roster) now (l1 ++ s :: l2) deleteRes).sessions) ∧
    (∀ t ∈ l2, ¬ t.sid ∈ l1.map (fun u => u.sid) →
      t ∈ (onGuildVerificationTick cache (some g) (Except.ok roster) now (l1 ++ s :: l2) deleteRes).sessions) ∧
    (¬ s.sid ∈ l1.map (fun u => u.sid) →
      s ∈ (onGuildVerificationTick cache (some g) (Except.ok roster) now (l1 ++ s :: l2) deleteRes).sessions) := by
  have hps : (s.discord_id.isSome && decide (now < s.expire)) = true := by
    simp [hid, hexp]
  have henum : enumerateSessions (l1 ++ s :: l2) now
      = List.filter (fun t => t.discord_id.isSome && decide (now < t.expire)) l1
        ++ s :: List.filter (fun t => t.discord_id.isSome && decide (now < t.expire)) l2 := by
    simp [enumerateSessions, List.filter_append, List.filter_cons, hps]
  have hokf : ∀ t ∈ List.filter (fun t => t.discord_id.isSome && decide (now < t.expire)) l1,
      deleteRes t.sid = Except.ok () :=
    fun t htf => hok1 t (List.mem_filter.mp htf).1
  have hsw1 := sweepSessions_all_ok
    ⟨(roster.map (fun m => m.user.id)).dedup, some now, false⟩ deleteRes
    (List.filter (fun t => t.discord_id.isSome && decide (now < t.expire)) l1) hokf
  have hcaught1 : (sweepSessions ⟨(roster.map (fun m => m.user.id)).dedup, some now, false⟩
      deleteRes (List.filter (fun t => t.discord_id.isSome && decide (now < t.expire)) l1)).caught
      = none := by
    rw [hsw1]
  have hmem_false :
      (⟨(roster.map (fun m => m.user.id)).dedup, some now, false⟩ : DiscordGuildCache).isMember d
        = false := by
    rw [isMember_mk_dedup, hmem]
  have hsw2 : sweepSessions ⟨(roster.map (fun m => m.user.id)).dedup, some now, false⟩ deleteRes
      (s :: List.filter (fun t => t.discord_id.isSome && decide (now < t.expire)) l2)
      = ⟨[], some e⟩ := by
    simp [sweepSessions, hid, hd, hmem_false, hfail]
  have hsweep : sweepSessions ⟨(roster.map (fun m => m.user.id)).dedup, some now, false⟩ deleteRes
      (enumerateSessions (l1 ++ s :: l2) now)
      = ⟨((List.filter (fun t => t.discord_id.isSome && decide (now < t.expire)) l1).filter
          (fun t => sessionSweepDeletes
            ⟨(roster.map (fun m => m.user.id)).dedup, some now, false⟩ t)).map (fun t => t.sid),
         some e⟩ := by
    rw [henum, sweepSessions_append _ _ _ _ hcaught1, hsw1, hsw2]
    simp
  have hsub : ∀ x ∈ ((List.filter (fun t => t.discord_id.isSome && decide (now < t.expire)) l1).filter
      (fun t => sessionSweepDeletes
        ⟨(roster.map (fun m => m.user.id)).dedup, some now, false⟩ t)).map (fun t => t.sid),
      x ∈ l1.map (fun u => u.sid) := by
    intro x hx
    obtain ⟨u, hu, hux⟩ := List.mem_map.mp hx
    exact List.mem_map.mpr ⟨u, (List.mem_filter.mp (List.mem_filter.mp hu).1).1, hux⟩
  simp only [onGuildVerificationTick_ok cache g roster now (l1 ++ s :: l2) deleteRes hidle hg,
    hsweep]
  refine ⟨trivial, ?_, ?_, ?_⟩
  · intro u hu du hdu hdune hexpu hnmem humem
    have hupass : (u.discord_id.isSome && decide (now < u.expire)) = true := by
      simp [hdu, hexpu]
    have humem_false :
        (⟨(roster.map (fun m => m.user.id)).dedup, some now, false⟩ : DiscordGuildCache).isMember du
          = false := by
      rw [isMember_mk_dedup, hnmem]
    have husd : sessionSweepDeletes
        ⟨(roster.map (fun m => m.user.id)).dedup, some now, false⟩ u = true := by
      simp [sessionSweepDeletes, hdu, hdune, humem_false]
    have husid : u.sid ∈ ((List.filter (fun t => t.discord_id.isSome && decide (now < t.expire)) l1).filter
        (fun t => sessionSweepDeletes
          ⟨(roster.map (fun m => m.user.id)).dedup, some now, false⟩ t)).map (fun t => t.sid) :=
      List.mem_map.mpr ⟨u, List.mem_filter.mpr ⟨List.mem_filter.mpr ⟨hu, hupass⟩, husd⟩, rfl⟩
    have h2 := (List.mem_filter.mp humem).2
    rw [contains_eq_decide_mem] at h2
    simp only [Bool.not_eq_true', decide_eq_false_iff_not] at h2
    exact h2 husid
  · intro t htl2 ht2
    refine List.mem_filter.mpr ⟨List.mem_append.mpr (Or.inr (List.mem_cons_of_mem s htl2)), ?_⟩
    rw [contains_eq_decide_mem]
    simp only [Bool.not_eq_true', decide_eq_false_iff_not]
    intro hmm
    exact ht2 (hsub t.sid hmm)
  · intro hs2
    refine List.mem_filter.mpr ⟨List.mem_append.mpr (Or.inr (List.mem_cons_self s l2)), ?_⟩
    rw [contains_eq_decide_mem]
    simp only [Bool.not_eq_true', decide_eq_false_iff_not]
    intro hmm
    exact hs2 (hsub s.sid hmm)

/-- C4 witness: member session sa is kept, non-member session sb is
deleted before the failure and stays deleted, the deletion of non-member
sc fails, and the later non-member session sd is left in place while the
error is recorded by the catch block of the tick. -/
theorem tick_session_error_caught_aborts_witness :
    (onGuildVerificationTick initialGuildCache (some "g") (Except.ok [⟨⟨"A"⟩⟩]) 0
        ([⟨some "ua", some "A", "sa", 10⟩, ⟨some "ub", some "B", "sb", 10⟩] ++
          ⟨some "u1", some "C", "sc", 10⟩ :: [⟨some "u2", some "D", "sd", 10⟩])
        (fun sid => if sid == "sc" then Except.error "db down" else Except.ok ())).caughtError
      = some "db down" ∧
    ¬ (⟨some "ub", some "B", "sb", 10⟩ : SessionRow) ∈
      (onGuildVerificationTick initialGuildCache (some "g") (Except.ok [⟨⟨"A"⟩⟩]) 0
        ([⟨some "ua", some "A", "sa", 10⟩, ⟨some "ub", some "B", "sb", 10⟩] ++
          ⟨some "u1", some "C", "sc", 10⟩ :: [⟨some "u2", some "D", "sd", 10⟩])
        (fun sid => if sid == "sc" then Except.error "db down" else Except.ok ())).sessions ∧
    (⟨some "u2", some "D", "sd", 10⟩ : SessionRow) ∈
      (onGuildVerificationTick initialGuildCache (some "g") (Except.ok [⟨⟨"A"⟩⟩]) 0
        ([⟨some "ua", some "A", "sa", 10⟩, ⟨some "ub", some "B", "sb", 10⟩] ++
          ⟨some "u1", some "C", "sc", 10⟩ :: [⟨some "u2", some "D", "sd", 10⟩])
        (fun sid => if sid == "sc" then Except.error "db down" else Except.ok ())).sessions ∧
    (⟨some "u1", some "C", "sc", 10⟩ : SessionRow) ∈
      (onGuildVerificationTick initialGuildCache (some "g") (Except.ok [⟨⟨"A"⟩⟩]) 0
        ([⟨some "ua", some "A", "sa", 10⟩, ⟨some "ub", some "B", "sb", 10⟩] ++
          ⟨some "u1", some "C", "sc", 10⟩ :: [⟨some "u2", some "D", "sd", 10⟩])
        (fun sid => if sid == "sc" then Except.error "db down" else Except.ok ())).sessions := by
  have h := tick_session_error_caught_aborts initialGuildCache "g" [⟨⟨"A"⟩⟩] 0
    [⟨some "ua", some "A", "sa", 10⟩, ⟨some "ub", some "B", "sb", 10⟩]
    [⟨some "u2", some "D", "sd", 10⟩]
    ⟨some "u1", some "C", "sc", 10⟩ "C" "db down"
    (fun sid => if sid == "sc" then Except.error "db down" else Except.ok ())
    rfl (by decide)
    (fun t ht => by
      rcases List.mem_cons.mp ht with htt | htt
      · rw [htt]
        rfl
      · have htt2 : t = ⟨some "ub", some "B", "sb", 10⟩ := by simpa using htt
        rw [htt2]
        rfl)
    rfl (by decide) (by decide) (by decide) rfl
  exact ⟨h.1,
    h.2.1 ⟨some "ub", some "B", "sb", 10⟩ (by decide) "B" rfl (by decide) (by decide) (by decide),
    h.2.2.1 ⟨some "u2", some "D", "sd", 10⟩ (by decide) (by decide),
    h.2.2.2 (by decide)⟩

/-- C10: a session whose extracted identity is null or the empty string is
never deleted by a verification tick, whatever the refresh does: the SQL
filter excludes null identities from enumeration and the loop skips falsy
identities, so only sessions with a non-empty identity are ever deleted. -/
theorem tick_skips_blank_identity
    (cache : DiscordGuildCache) (guildId : Option String)
    (fetch : Except String (List GuildMember)) (now : Nat)
    (sessions : List SessionRow) (deleteRes : String → Except String Unit)
    (t : SessionRow)
    (hnodup : (sessions.map (fun u => u.sid)).Nodup)
    (ht : t ∈ sessions) (hblank : jsTruthy t.discord_id = false) :
    t ∈ (onGuildVerificationTick cache guildId fetch now sessions deleteRes).sessions := by
  have hmain : ∀ st : DiscordGuildCache,
      t ∈ sessions.filter (fun x =>
        !((sweepSessions st deleteRes (enumerateSessions sessions now)).deletedSids.contains x.sid)) := by
    intro st
    refine List.mem_filter.mpr ⟨ht, ?_⟩
    rw [contains_eq_decide_mem]
    simp only [Bool.not_eq_true', decide_eq_false_iff_not]
    intro hmm
    obtain ⟨u, hu, hus, hud⟩ := sweepSessions_deleted_sound st deleteRes _ t.sid hmm
    have husess : u ∈ sessions := (List.mem_filter.mp hu).1
    have hut : u = t := List.inj_on_of_nodup_map hnodup husess ht hus
    rw [hut] at hud
    cases hidt : t.discord_id with
    | none => simp [sessionSweepDeletes, hidt] at hud
    | some dd =>
      have hdd : dd = "" := by simpa [jsTruthy, hidt] using hblank
      rw [hdd] at hidt
      simp [sessionSweepDeletes, hidt] at hud
  simp only [onGuildVerificationTick]
  cases houtcome : (cache.syncGuildMembers guildId fetch now).outcome with
  | missingGuildIdError => simpa using ht
  | syncFailed e => simpa using ht
  | skippedInProgress => simpa using hmain (cache.syncGuildMembers guildId fetch now).state
  | synced n => simpa using hmain (cache.syncGuildMembers guildId fetch now).state

/-- C10 witness: a tick on a table holding a null-identity session, an
empty-identity session and a non-member session deletes only the last. -/
theorem tick_skips_blank_identity_witness :
    (⟨some "u1", none, "s1", 10⟩ : SessionRow) ∈
      (onGuildVerificationTick initialGuildCache (some "g") (Except.ok [⟨⟨"A"⟩⟩]) 0
        [⟨some "u1", none, "s1", 10⟩, ⟨some "u2", some "", "s2", 10⟩,
         ⟨some "u3", some "C", "s3", 10⟩] (fun _ => Except.ok ())).sessions ∧
    (⟨some "u2", some "", "s2", 10⟩ : SessionRow) ∈
      (onGuildVerificationTick initialGuildCache (some "g") (Except.ok [⟨⟨"A"⟩⟩]) 0
        [⟨some "u1", none, "s1", 10⟩, ⟨some "u2", some "", "s2", 10⟩,
         ⟨some "u3", some "C", "s3", 10⟩] (fun _ => Except.ok ())).sessions ∧
    ¬ (⟨some "u3", some "C", "s3", 10⟩ : SessionRow) ∈
      (onGuildVerificationTick initialGuildCache (some "g") (Except.ok [⟨⟨"A"⟩⟩]) 0
        [⟨some "u1", none, "s1", 10⟩, ⟨some "u2", some "", "s2", 10⟩,
         ⟨some "u3", some "C", "s3", 10⟩] (fun _ => Except.ok ())).sessions := by
  refine ⟨?_, ?_, by decide⟩
  · exact tick_skips_blank_identity initialGuildCache (some "g") (Except.ok [⟨⟨"A"⟩⟩]) 0
      [⟨some "u1", none, "s1", 10⟩, ⟨some "u2", some "", "s2", 10⟩, ⟨some "u3", some "C", "s3", 10⟩]
      (fun _ => Except.ok ()) ⟨some "u1", none, "s1", 10⟩ (by decide) (by decide) rfl
  · exact tick_skips_blank_identity initialGuildCache (some "g") (Except.ok [⟨⟨"A"⟩⟩]) 0
      [⟨some "u1", none, "s1", 10⟩, ⟨some "u2", some "", "s2", 10⟩, ⟨some "u3", some "C", "s3", 10⟩]
      (fun _ => Except.ok ()) ⟨some "u2", some "", "s2", 10⟩ (by decide) (by decide) rfl

/-! ## Authorization gate theorems -/

/-- C1 counterexample to the claim as stated: in the Discord OAuth handler
a cache miss followed by a transport error of the live check does not
produce a denial with a try-again-later message; the error falls through
to the outer catch and is handed to done(error). The user is still not
authorized, but the claimed message behaviour is absent. -/
theorem discord_login_transport_error_cex :
    handleDiscordLogin (some "guild1") ⟨"U1", "u", "u@example.test", "av"⟩ initialGuildCache
        (Except.error "connect ETIMEDOUT") (Except.ok 0) (Except.ok none) (Except.ok ())
        (Except.ok ()) (Except.ok none)
      = LoginOutcome.doneError "connect ETIMEDOUT" ∧
    initialGuildCache.isMember "U1" = false := by
  refine ⟨rfl, rfl⟩

/-- C1 (amended): on a cache miss with a transport error from the live
membership check, no login handler ever authorizes the user: the password
strategy returns a denial flashing a try-again-later message, while the
Discord OAuth strategy hands the error to the framework (or maps it to a
flashed failure) without authorizing. -/
theorem login_transport_error_fail_closed
    (email pw : String) (rows : List UserRow) (data : UserRow) (hashv : String)
    (bcryptCompare : String → String → Bool) (guildId : Option String)
    (cache : DiscordGuildCache) (d e : String)
    (guildId2 : Option String) (profile : DiscordProfile) (cache2 : DiscordGuildCache)
    (e2 : String) (localAccountCount : Except String Nat)
    (existingUser : Except String (Option UserRow))
    (setActiveTeamRes : Except String Unit) (updateProfileRes : Except String Unit)
    (registerRes : Except String (Option String))
    (hemail : email ≠ "") (hpw : pw ≠ "")
    (hdata : rows.head? = some data)
    (hhash : data.password = some hashv) (hhash2 : hashv ≠ "")
    (hcmp : bcryptCompare pw hashv = true)
    (hdid : data.discord_id = some d) (hd : d ≠ "")
    (hguild : jsTruthy guildId = true)
    (hmiss : cache.isMember d = false)
    (hguild2 : jsTruthy guildId2 = true)
    (hmiss2 : cache2.isMember profile.id = false) :
    handleLogin email pw (Except.ok rows) bcryptCompare guildId cache (Except.error e)
      = LoginOutcome.doneFalse "Failed to verify Discord membership. Please try again later." ∧
    (handleDiscordLogin guildId2 profile cache2 (Except.error e2) localAccountCount
        existingUser setActiveTeamRes updateProfileRes registerRes).isSuccess = false := by
  constructor
  · have h1 : (email == "" || pw == "") = false := by simp [hemail, hpw]
    have h2 : jsTruthy data.password = true := by simp [jsTruthy, hhash, hhash2]
    have h3 : jsTruthy data.discord_id = true := by simp [jsTruthy, hdid, hd]
    have h4 : data.password.getD "" = hashv := by rw [hhash]; rfl
    have h5 : data.discord_id.getD "" = d := by rw [hdid]; rfl
    simp [handleLogin, h1, hdata, h2, h3, h4, h5, hcmp, hguild, hmiss]
  · simp only [handleDiscordLogin, hguild2, hmiss2, Bool.not_true, Bool.false_eq_true,
      if_false]
    unfold discordLoginCatch
    split <;> rfl

/-- C1 witness with concrete credentials, an empty cache and failing live
checks in both handlers. -/
theorem login_transport_error_fail_closed_witness :
    handleLogin "a@b.test" "pw" (Except.ok [⟨"uid1", "a@b.test", none, some "hash", some "D1"⟩])
        (fun _ _ => true) (some "g") initialGuildCache (Except.error "timeout")
      = LoginOutcome.doneFalse "Failed to verify Discord membership. Please try again later." ∧
    (handleDiscordLogin (some "g") ⟨"U1", "u", "u@x.test", "av"⟩ initialGuildCache
        (Except.error "timeout2") (Except.ok 0) (Except.ok none) (Except.ok ()) (Except.ok ())
        (Except.ok none)).isSuccess = false :=
  login_transport_error_fail_closed "a@b.test" "pw"
    [⟨"uid1", "a@b.test", none, some "hash", some "D1"⟩]
    ⟨"uid1", "a@b.test", none, some "hash", some "D1"⟩ "hash" (fun _ _ => true) (some "g")
    initialGuildCache "D1" "timeout" (some "g") ⟨"U1", "u", "u@x.test", "av"⟩ initialGuildCache
    "timeout2" (Except.ok 0) (Except.ok none) (Except.ok ()) (Except.ok ()) (Except.ok none)
    (by decide) (by decide) rfl rfl (by decide) rfl rfl (by decide) rfl rfl rfl rfl

/-- C9: when the configured guild id is absent (or empty, which JavaScript
also treats as unset), the cron bootstrap does not start the verification
job, neither login handler ever authorizes anybody, the Discord OAuth
handler fails with its configuration message outright, and a password
attempt that passes the credential checks fails with the generic server
configuration message. -/
theorem missing_guild_id_fails_closed
    (botToken guildId : Option String)
    (email pw : String) (queryRows : Except String (List UserRow))
    (bcryptCompare : String → String → Bool) (cache : DiscordGuildCache)
    (isUserInGuild : Except String Bool)
    (data : UserRow) (rest : List UserRow) (hashv : String)
    (profile : DiscordProfile) (cache2 : DiscordGuildCache)
    (isUserInGuild2 : Except String Bool) (localAccountCount : Except String Nat)
    (existingUser : Except String (Option UserRow)) (setActiveTeamRes : Except String Unit)
    (updateProfileRes : Except String Unit) (registerRes : Except String (Option String))
    (hg : jsTruthy guildId = false) :
    discordJobStarted botToken guildId = false ∧
    (handleLogin email pw queryRows bcryptCompare guildId cache isUserInGuild).isSuccess = false ∧
    handleDiscordLogin guildId profile cache2 isUserInGuild2 localAccountCount existingUser
        setActiveTeamRes updateProfileRes registerRes
      = LoginOutcome.doneFalse "Discord guild configuration missing" ∧
    (email ≠ "" → pw ≠ "" → queryRows = Except.ok (data :: rest) →
      data.password = some hashv → hashv ≠ "" → bcryptCompare pw hashv = true →
      jsTruthy data.discord_id = true →
      handleLogin email pw queryRows bcryptCompare guildId cache isUserInGuild
        = LoginOutcome.doneFalse "Server configuration error. Please contact support.") := by
  refine ⟨?_, ?_, ?_, ?_⟩
  · simp [discordJobStarted, hg]
  · unfold handleLogin
    rw [hg]
    repeat' split
    all_goals first
      | rfl
      | (exfalso; simp_all)
  · simp [handleDiscordLogin, hg]
  · intro hemail hpw hq hhash hhash2 hcmp hdid
    have h1 : (email == "" || pw == "") = false := by simp [hemail, hpw]
    have h2 : jsTruthy data.password = true := by simp [jsTruthy, hhash, hhash2]
    have h4 : data.password.getD "" = hashv := by rw [hhash]; rfl
    subst hq
    simp [handleLogin, h1, h2, h4, hcmp, hdid, hg]

/-- C9 witness: unset guild id with a present bot token, a credentialed
password attempt and an OAuth attempt. -/
theorem missing_guild_id_fails_closed_witness :
    discordJobStarted (some "t") none = false ∧
    (handleLogin "a@b.test" "pw" (Except.ok [⟨"uid1", "a@b.test", none, some "hash", some "D1"⟩])
        (fun _ _ => true) none initialGuildCache (Except.ok true)).isSuccess = false ∧
    handleDiscordLogin none ⟨"U1", "u", "u@x.test", "av"⟩ initialGuildCache (Except.ok true)
        (Except.ok 0) (Except.ok none) (Except.ok ()) (Except.ok ()) (Except.ok none)
      = LoginOutcome.doneFalse "Discord guild configuration missing" ∧
    handleLogin "a@b.test" "pw" (Except.ok [⟨"uid1", "a@b.test", none, some "hash", some "D1"⟩])
        (fun _ _ => true) none initialGuildCache (Except.ok true)
      = LoginOutcome.doneFalse "Server configuration error. Please contact support." := by
  have h := missing_guild_id_fails_closed (some "t") none "a@b.test" "pw"
    (Except.ok [⟨"uid1", "a@b.test", none, some "hash", some "D1"⟩]) (fun _ _ => true)
    initialGuildCache (Except.ok true) ⟨"uid1", "a@b.test", none, some "hash", some "D1"⟩ []
    "hash" ⟨"U1", "u", "u@x.test", "av"⟩ initialGuildCache (Except.ok true) (Except.ok 0)
    (Except.ok none) (Except.ok ()) (Except.ok ()) (Except.ok none) rfl
  exact ⟨h.1, h.2.1, h.2.2.1, h.2.2.2 (by decide) (by decide) rfl rfl (by decide) rfl rfl⟩
